import Mathlib

/-!
# Verification of the Orbit intent router and email conversation state machine

A shallow embedding of the Orbit voice assistant's core decision logic:

* `Orbit.EmailVoiceAssistant` — the conversational state machine of
  `Orbit_core/actions/email_voice_assistant.py` (`process_voice_command` and
  its helpers), with the external collaborators (IMAP/SMTP service and the
  LLM) supplied as an explicit environment of oracle functions.
* `Orbit.ScheduleAction` — the two-step scheduler of
  `Orbit_core/actions/schedule_action.py`.
* `Orbit.SourceSelector` — the keyword intent classifier and per-turn routing
  of `Orbit_core/intent/source_selector.py`.

Python strings are modelled as Lean `String`; `in` on strings is substring
containment, `.get` on dicts is `Option.getD`, exceptions raised by external
collaborators are `Except.error`.  The few regular expressions used by the
source are implemented directly over `List Char` with Python `re` semantics
(word boundaries, lazy/greedy repetition with the backtracking the concrete
patterns need).
-/

namespace Orbit

/-- Boolean list prefix test. -/
def prefixOf : List Char → List Char → Bool
  | [], _ => true
  | _ :: _, [] => false
  | a :: as, b :: bs => a = b && prefixOf as bs

/-- Boolean contiguous-sublist test. -/
def infixOf (needle : List Char) : List Char → Bool
  | [] => prefixOf needle []
  | b :: bs => prefixOf needle (b :: bs) || infixOf needle bs

/-- Python `needle in hay` on strings: substring containment. -/
def containsSub (hay needle : String) : Bool :=
  infixOf needle.data hay.data

/-- Python `s.lower()` (ASCII is all the source ever meets). -/
def pyLower (s : String) : String :=
  String.mk (s.data.map Char.toLower)

/-- Python `s.strip()`: drop whitespace from both ends. -/
def pyStrip (s : String) : String :=
  String.mk (((s.data.dropWhile Char.isWhitespace).reverse.dropWhile Char.isWhitespace).reverse)

/-- Python `s.startswith(pfx)`. -/
def pyStartsWith (s pfx : String) : Bool :=
  prefixOf pfx.data s.data

/-- Drop `pfx` from the front of `s`, or fail. -/
def dropPfx : List Char → List Char → Option (List Char)
  | [], s => some s
  | _ :: _, [] => none
  | a :: as, b :: bs => if a = b then dropPfx as bs else none

/-- Python `s.replace(pat, '')`: delete occurrences, non-overlapping, left to
right (the source only ever replaces with the empty string). -/
def removeScan (pat : List Char) : Nat → List Char → List Char
  | 0, s => s
  | _ + 1, [] => []
  | n + 1, c :: rest =>
    match dropPfx pat (c :: rest) with
    | some r => removeScan pat n r
    | none => c :: removeScan pat n rest

def pyRemove (s pat : String) : String :=
  String.mk (removeScan pat.data s.data.length s.data)

/-- The suffix after the last occurrence of `pat` (Python
`s.split(pat)[-1]`), assuming an occurrence exists at the current position or
later. -/
def afterLastOcc (pat : List Char) : Nat → List Char → List Char
  | 0, s => s
  | n + 1, s =>
    match dropPfx pat s with
    | some r => if infixOf pat r then afterLastOcc pat n r else r
    | none =>
      match s with
      | [] => []
      | _ :: rest => afterLastOcc pat n rest

/-- Python `s.split(pat)[-1]`: the suffix after the last (left-to-right,
non-overlapping) occurrence, or the whole string when there is none. -/
def pyAfterLast (s pat : String) : String :=
  if infixOf pat.data s.data then String.mk (afterLastOcc pat.data s.data.length s.data) else s

/-- Python `sep.join(xs)`. -/
def joinWith (sep : String) : List String → String
  | [] => ""
  | [x] => x
  | x :: xs => x ++ sep ++ joinWith sep xs

/-- Python `s[:n]` (by code point, as Python slices strings). -/
def pyTake (s : String) (n : Nat) : String :=
  String.mk (s.data.take n)

/-- Dictionary lookup over an association list of exact phrases. -/
def lookupStr : List (String × String) → String → Option String
  | [], _ => none
  | p :: rest, k => if p.1 = k then some p.2 else lookupStr rest k

/-- Python `any(kw in q for kw in kws)`. -/
def anyKeyword (q : String) (kws : List String) : Bool :=
  kws.any (fun kw => containsSub q kw)

/-- Python `s.strip(chars)`: remove any of the given characters from both ends. -/
def stripChars (s : String) (cs : List Char) : String :=
  String.mk (((s.data.dropWhile (cs.contains ·)).reverse.dropWhile (cs.contains ·)).reverse)

/-- Python `s.split('@')[0]`: the part before the first `@` (the whole string
if there is none). -/
def localPart (s : String) : String :=
  String.mk (s.data.takeWhile (fun c => c ≠ '@'))

/-- Accumulating splitter for `s.split()` (whitespace runs, empties dropped). -/
def wordsAux (acc : List Char) : List Char → List (List Char)
  | [] => if acc.isEmpty then [] else [acc.reverse]
  | c :: rest =>
    if c.isWhitespace then
      if acc.isEmpty then wordsAux [] rest else acc.reverse :: wordsAux [] rest
    else wordsAux (c :: acc) rest

/-- Python `s.split()`: split on whitespace runs, dropping empty pieces. -/
def pySplit (s : String) : List String :=
  (wordsAux [] s.data).map String.mk

/-- Python regex `\w`: word character (the source only ever meets ASCII). -/
def isWordChar (c : Char) : Bool :=
  c.isAlphanum || c = '_'

/-- One attempted match of the regex `\bW1\s+W2\b` at the current position.
`prevWord` says whether the character before the position is a word character
(needed for the leading `\b`).  On success, returns the characters after the
match and the word-char status of the last matched character. -/
def tryWordPair (w1 w2 : List Char) (prevWord : Bool) (s : List Char) :
    Option (List Char × Bool) :=
  if prevWord then none
  else match dropPfx w1 s with
    | none => none
    | some r1 =>
      let ws := r1.takeWhile Char.isWhitespace
      if ws.isEmpty then none
      else match dropPfx w2 (r1.drop ws.length) with
        | none => none
        | some r3 =>
          match r3.head? with
          | some c => if isWordChar c then none else some (r3, isWordChar (w2.getLastD ' '))
          | none => some (r3, isWordChar (w2.getLastD ' '))

/-- One attempted match of `\bto\s+\w+@[\w\.]+\b` at the current position.
The trailing boundary makes the greedy `[\w\.]+` give back any trailing dots. -/
def tryToAddr (prevWord : Bool) (s : List Char) : Option (List Char × Bool) :=
  if prevWord then none
  else match dropPfx ['t', 'o'] s with
    | none => none
    | some r1 =>
      let ws := r1.takeWhile Char.isWhitespace
      if ws.isEmpty then none
      else
        let r2 := r1.drop ws.length
        let user := r2.takeWhile isWordChar
        if user.isEmpty then none
        else match r2.drop user.length with
          | '@' :: r3 =>
            let run := r3.takeWhile (fun c => isWordChar c || c = '.')
            let kept := (run.reverse.dropWhile (fun c => c = '.')).reverse
            if kept.isEmpty then none
            else some (r3.drop kept.length, true)
          | _ => none

/-- Python `re.sub(pattern, '', s)`: scan left to right, deleting every match.
`tryM` attempts one match; the fuel starts at the string length (every match
consumes at least one character, so it never runs out). -/
def subScan (tryM : Bool → List Char → Option (List Char × Bool)) :
    Nat → Bool → List Char → List Char
  | 0, _, s => s
  | _ + 1, _, [] => []
  | n + 1, prevWord, c :: rest =>
    match tryM prevWord (c :: rest) with
    | some (r, lw) => subScan tryM n lw r
    | none => c :: subScan tryM n (isWordChar c) rest

/-- Delete every match of a pattern from a string (Python `re.sub(p, '', s)`). -/
def regexSub (tryM : Bool → List Char → Option (List Char × Bool)) (s : String) : String :=
  String.mk (subScan tryM s.data.length false s.data)

/-! ## Data model of the email voice assistant

`email_voice_assistant.py`.  Emails are the summary dictionaries produced by
the communication service; a missing dictionary key is `none`. -/

/-- An email summary as returned by `CommunicationService.read_emails`.
`errMsg` models the presence of the `'error'` key. -/
structure Email where
  fromAddr : Option String
  fromName : Option String
  subject : Option String
  body : Option String
  priority : Option String
  errMsg : Option String
  deriving Repr, DecidableEq

/-- A draft outbound email (`state['draft_email']`); `toAddr` is the
dictionary's `'to'` key. -/
structure Draft where
  toAddr : String
  subject : Option String
  body : Option String
  deriving Repr, DecidableEq

/-- The conversation state of `EmailVoiceAssistant` (the
`last_command_time` bookkeeping field carries no decision logic and is not
modelled). -/
structure EmailState where
  mode : String
  activeEmail : Option Email
  recentEmails : List Email
  draftEmail : Option Draft
  pendingSend : Bool
  replyBody : Option String
  deriving Repr, DecidableEq

/-- The state built by `__init__` / `reset_state`. -/
def initialEmailState : EmailState :=
  { mode := "idle", activeEmail := none, recentEmails := [], draftEmail := none,
    pendingSend := false, replyBody := none }

/-- The result of `CommunicationService.send_email`. -/
structure SendResult where
  status : Option String
  errMsg : Option String
  deriving Repr, DecidableEq

/-- One invocation of `send_email` (`toAddr` is the `to` argument). -/
structure SendCall where
  toAddr : Option String
  subject : String
  body : String
  deriving Repr, DecidableEq

/-- The external collaborators of the assistant, as oracles.  `Except.error`
models the collaborator raising an exception (`llm_generate` errors are caught
by the assistant; the other two propagate). -/
structure Env where
  read_emails : Bool → Except String (List Email)
  llm_generate : String → Except String String
  send_email : Option String → String → String → Except String SendResult

deriving instance DecidableEq for Except

/-- Outcome of one `process_voice_command` turn: the response (or an escaped
exception), the successor state, and the list of `send_email` invocations made
during the turn. -/
structure VoiceResult where
  resp : Except String String
  state : EmailState
  sends : List SendCall
  deriving Repr, DecidableEq

/-! ### Keyword sets (`EmailVoiceAssistant.__init__`) -/

def check_keywords : List String :=
  ["check email", "read email", "new email", "unread email",
   "any email", "get email", "show email", "how many email"]

def reply_keywords : List String :=
  ["reply", "respond", "answer that", "reply to", "send reply"]

def compose_keywords : List String :=
  ["compose", "send email to", "email", "write email", "new email to"]

def confirmation_yes : List String :=
  ["yes", "yeah", "yep", "sure", "okay", "ok", "send it",
   "confirm", "go ahead", "send"]

def confirmation_no : List String :=
  ["no", "nope", "cancel", "don\x27t send", "stop", "nevermind", "never mind"]

/-! ### Reference resolution (`_select_email_from_query`) -/

/-- The sender-name matching loop at the end of `_select_email_from_query`. -/
def selectByName (q : String) : List Email → Option Email
  | [] => none
  | e :: rest =>
    let fromName := pyLower (e.fromName.getD "")
    let fromAddr := pyLower (e.fromAddr.getD "")
    if fromName ≠ "" && containsSub q fromName then some e
    else if fromAddr ≠ "" && containsSub q (pyLower (localPart fromAddr)) then some e
    else selectByName q rest

/-- `_select_email_from_query`.  The source indexes `recent_emails[0]` /
`[-1]` directly; both call sites run only when the window is non-empty, so the
`Option`-returning accessors agree with it on every reachable state. -/
def select_email_from_query (recent : List Email) (q : String) : Option Email :=
  if containsSub q "first" || containsSub q "latest" || containsSub q "newest"
      || containsSub q "most recent" then
    recent.head?
  else if containsSub q "second" && recent.length > 1 then
    recent[1]?
  else if containsSub q "third" && recent.length > 2 then
    recent[2]?
  else if containsSub q "last" then
    recent.getLast?
  else
    selectByName q recent

/-! ### Reply-content extraction (`_extract_reply_content`) -/

def sub_that_email (s : String) : String :=
  regexSub (tryWordPair "that".data "email".data) s

def sub_the_email (s : String) : String :=
  regexSub (tryWordPair "the".data "email".data) s

def sub_to_address (s : String) : String :=
  regexSub tryToAddr s

/-- `_extract_reply_content`: strip reply keywords, referent phrases and email
addresses from the utterance; the remainder is the casual reply text if longer
than 5 characters. -/
def extract_reply_content (q : String) : Option String :=
  let c := reply_keywords.foldl (fun acc kw => pyRemove acc kw) q
  let c := sub_that_email c
  let c := sub_the_email c
  let c := sub_to_address c
  let c := stripChars c [' ', ',', '.', ':', ';', '!', '?', 't', 'o']
  if c.length > 5 then some c else none

/-! ### Drafting and sending -/

/-- The LLM prompt built by `_generate_reply`. -/
def reply_prompt (casualMessage : String) (emailData : Email) : String :=
  let fromName := emailData.fromName.getD (emailData.fromAddr.getD "Unknown")
  let subject := emailData.subject.getD "Your email"
  let originalBody := pyTake (emailData.body.getD "") 200
  "Convert this casual message into a professional email reply.\n\nOriginal email subject: "
    ++ subject ++ "\nFrom: " ++ fromName ++ "\nOriginal message excerpt: "
    ++ pyTake originalBody 100
    ++ "...\n\nCasual message: \"" ++ casualMessage
    ++ "\"\n\nGenerate a formal, professional email reply. Keep it concise (2-4 sentences). Include:\n1. Appropriate greeting (Hi/Dear "
    ++ fromName
    ++ ")\n2. Professional version of the casual message\n3. Polite closing (Best regards/Thank you)\n\nReply:"

/-- `_generate_reply`: expand the casual text into a formal reply via the LLM;
on success the draft is stored and confirmation becomes pending.  An LLM
exception is caught and reported. -/
def generate_reply (env : Env) (st : EmailState) (casualMessage : String) (emailData : Email) :
    VoiceResult :=
  match env.llm_generate (reply_prompt casualMessage emailData) with
  | .error e =>
    { resp := .ok ("Sorry, I had trouble generating the reply: " ++ e), state := st, sends := [] }
  | .ok generated =>
    let formalReply := pyStrip generated
    { resp := .ok ("I\x27ve prepared this reply: " ++ formalReply
        ++ ". Should I send it? Say yes to send or no to cancel."),
      state := { st with replyBody := some formalReply, pendingSend := true }, sends := [] }

/-- The `Re:`-prefixed subject computed by `_send_reply`. -/
def reply_subject (emailData : Email) : String :=
  let subject := emailData.subject.getD "Your email"
  if pyStartsWith (pyLower subject) "re:" then subject else "Re: " ++ subject

/-- `_send_reply`.  On `status == 'sent'` the state resets; the eagerly
evaluated default argument `to_address.split('@')[0]` raises AttributeError
when the email has no `from` address, before the reset is reached.  On any
other status the state is left untouched. -/
def send_reply (env : Env) (st : EmailState) : VoiceResult :=
  match st.activeEmail, st.replyBody with
  | some emailData, some replyBody =>
    if replyBody = "" then
      { resp := .ok "Sorry, I lost the email context. Let\x27s start over.",
        state := st, sends := [] }
    else
      let toAddress := emailData.fromAddr
      let subject := reply_subject emailData
      let call : SendCall := { toAddr := toAddress, subject := subject, body := replyBody }
      match env.send_email toAddress subject replyBody with
      | .error e => { resp := .error e, state := st, sends := [call] }
      | .ok result =>
        if result.status = some "sent" then
          match toAddress with
          | none =>
            { resp := .error "AttributeError: \x27NoneType\x27 object has no attribute \x27split\x27",
              state := st, sends := [call] }
          | some addr =>
            let fromName := emailData.fromName.getD (localPart addr)
            { resp := .ok ("Email sent to " ++ fromName ++ "!"),
              state := initialEmailState, sends := [call] }
        else
          { resp := .ok ("Sorry, the email failed to send: " ++ result.errMsg.getD "Unknown error"),
            state := st, sends := [call] }
  | _, _ =>
    { resp := .ok "Sorry, I lost the email context. Let\x27s start over.",
      state := st, sends := [] }

/-- `_handle_confirmation`: the affirmative word set is tested first. -/
def handle_confirmation (env : Env) (st : EmailState) (q : String) : VoiceResult :=
  let isYes := anyKeyword q confirmation_yes
  let isNo := anyKeyword q confirmation_no
  if isYes then send_reply env st
  else if isNo then
    { resp := .ok "Okay, I\x27ve cancelled the email. What else can I help with?",
      state := initialEmailState, sends := [] }
  else
    { resp := .ok "I didn\x27t catch that. Say yes to send or no to cancel.",
      state := st, sends := [] }

/-! ### Checking, replying, composing -/

/-- `email.get('from_name') or email.get('from', 'Unknown').split('@')[0]`:
the `or` falls through on a missing key and on an empty display name. -/
def display_name_or (e : Email) : String :=
  match e.fromName with
  | some s => if s ≠ "" then s else localPart (e.fromAddr.getD "Unknown")
  | none => localPart (e.fromAddr.getD "Unknown")

/-- `e.get('from_name', e.get('from', 'Unknown').split('@')[0])`: the default
is used only when the `from_name` key is absent. -/
def sender_name (e : Email) : String :=
  e.fromName.getD (localPart (e.fromAddr.getD "Unknown"))

/-- `_check_emails`: fetch a window of emails and store the first three as the
referent context. -/
def check_emails (env : Env) (st : EmailState) (q : String) : VoiceResult :=
  let unreadOnly := containsSub q "unread" || containsSub q "new"
  match env.read_emails unreadOnly with
  | .error e => { resp := .error e, state := st, sends := [] }
  | .ok emails =>
    match emails with
    | [] => { resp := .ok "Sorry, No emails found", state := st, sends := [] }
    | e0 :: _ =>
      if e0.errMsg.isSome then
        { resp := .ok ("Sorry, " ++ e0.errMsg.getD "Could not fetch emails"),
          state := st, sends := [] }
      else
        let count := emails.length
        let emailType := if unreadOnly then "unread" else "recent"
        let header := "You have " ++ toString count ++ " " ++ emailType ++ " email"
          ++ (if count ≠ 1 then "s. " else ". ")
        let body := (emails.take 3).foldl (fun acc e =>
          let fromName := display_name_or e
          let subject := e.subject.getD "No subject"
          let priority := if e.priority = some "high" then "Urgent: " else ""
          acc ++ priority ++ "From " ++ fromName ++ ": " ++ subject ++ ". ") header
        let response := if count > 3 then
            body ++ "And " ++ toString (count - 3) ++ " more emails."
          else body
        { resp := .ok response,
          state := { st with recentEmails := emails.take 3, mode := "email_check" },
          sends := [] }

/-- The tail of `_reply_to_email` once a referent email has been chosen: mark
it active, switch to reply mode, and either draft from inline content or ask
for content. -/
def reply_with_selected (env : Env) (st : EmailState) (q : String) (emailToReply : Email) :
    VoiceResult :=
  let st' := { st with activeEmail := some emailToReply, mode := "email_reply" }
  match extract_reply_content q with
  | some replyContent => generate_reply env st' replyContent emailToReply
  | none =>
    let fromName := emailToReply.fromName.getD (emailToReply.fromAddr.getD "Unknown")
    { resp := .ok ("What would you like to say to " ++ fromName ++ "?"),
      state := st', sends := [] }

/-- `_reply_to_email`: resolve the referent; with several candidates and no
selector, list the senders instead of guessing. -/
def reply_to_email (env : Env) (st : EmailState) (q : String) : VoiceResult :=
  match st.recentEmails with
  | [] =>
    { resp := .ok "I don\x27t have any recent emails loaded. Say \x27check emails\x27 first.",
      state := st, sends := [] }
  | e0 :: rest =>
    match select_email_from_query st.recentEmails q with
    | some emailToReply => reply_with_selected env st q emailToReply
    | none =>
      if rest.isEmpty then reply_with_selected env st q e0
      else
        let names := st.recentEmails.map sender_name
        { resp := .ok ("Which email? I have emails from " ++ joinWith ", " names
            ++ ". Say \x27reply to\x27 followed by the name."),
          state := st, sends := [] }

/-- The token test for the capture `([^\s]+@[^\s]+)`: a maximal non-space run
matches iff it has an `@` that is neither its first nor its last character
(greediness makes the capture the whole run). -/
def tokenWithAt (s : List Char) : Option (List Char) :=
  let run := s.takeWhile (fun c => ¬ c.isWhitespace)
  if ((run.drop 1).dropLast).contains '@' then some run else none

/-- One attempted match of `(?:email|send)\s+(?:to\s+)?([^\s]+@[^\s]+)` at the
current position, returning the captured group. -/
def tryRecipient (s : List Char) : Option (List Char) :=
  let kw := match dropPfx "email".data s with
    | some r => some r
    | none => dropPfx "send".data s
  match kw with
  | none => none
  | some r1 =>
    let ws := r1.takeWhile Char.isWhitespace
    if ws.isEmpty then none
    else
      let r2 := r1.drop ws.length
      let withTo : Option (List Char) :=
        match dropPfx "to".data r2 with
        | none => none
        | some r3 =>
          let ws2 := r3.takeWhile Char.isWhitespace
          if ws2.isEmpty then none
          else tokenWithAt (r3.drop ws2.length)
      match withTo with
      | some run => some run
      | none => tokenWithAt r2

/-- `re.search` for the recipient pattern of `_compose_email`: earliest
starting position wins. -/
def find_recipient : List Char → Option String
  | [] => none
  | c :: rest =>
    match tryRecipient (c :: rest) with
    | some run => some (String.mk run)
    | none => find_recipient rest

/-- `_extract_subject_from_content`: first five words, truncated to 50. -/
def extract_subject_from_content (content : String) : String :=
  let words := (pySplit content).take 5
  let subject := joinWith " " words
  if subject.length > 50 then pyTake subject 47 ++ "..." else subject

/-- The LLM prompt built by `_compose_email`. -/
def compose_prompt (recipient content : String) : String :=
  "Convert this casual message into a professional email.\n\nRecipient: " ++ recipient
    ++ "\nCasual message: \"" ++ content
    ++ "\"\n\nGenerate a formal, professional email. Keep it concise. Include:\n1. Appropriate greeting\n2. Professional version of the message\n3. Polite closing\n\nEmail:"

/-- `_compose_email`: need a syntactic recipient address; with content, draft
via the LLM and set the confirmation flag. -/
def compose_email (env : Env) (st : EmailState) (q : String) : VoiceResult :=
  match find_recipient q.data with
  | none =>
    { resp := .ok "Who would you like to email? Please include their email address.",
      state := st, sends := [] }
  | some recipient =>
    let content := stripChars (pyAfterLast q recipient)
      [' ', ',', '.', ':', ';', '!', '?']
    if content.length < 5 then
      { resp := .ok ("What would you like to say to " ++ recipient ++ "?"),
        state := { st with
          draftEmail := some { toAddr := recipient, subject := none, body := none } },
        sends := [] }
    else
      match env.llm_generate (compose_prompt recipient content) with
      | .error e =>
        { resp := .ok ("Sorry, I had trouble composing the email: " ++ e),
          state := st, sends := [] }
      | .ok generated =>
        let formalEmail := pyStrip generated
        let draft : Draft :=
          { toAddr := recipient,
            subject := some (extract_subject_from_content content),
            body := some formalEmail }
        { resp := .ok ("I\x27ve prepared this email to " ++ recipient ++ ": " ++ formalEmail
            ++ ". Should I send it?"),
          state := { st with draftEmail := some draft, pendingSend := true },
          sends := [] }

/-- `_handle_email_selection` (context commands while in `email_check` mode). -/
def handle_email_selection (st : EmailState) (q : String) : VoiceResult :=
  match select_email_from_query st.recentEmails q with
  | some email =>
    let fromName := email.fromName.getD (email.fromAddr.getD "Unknown")
    let subject := email.subject.getD "No subject"
    let body := pyTake (email.body.getD "No content") 500
    { resp := .ok ("Email from " ++ fromName ++ ". Subject: " ++ subject ++ ". Message: "
        ++ body ++ ". Would you like to reply?"),
      state := { st with activeEmail := some email }, sends := [] }
  | none =>
    { resp := .ok "I couldn\x27t find that email. Try saying \x27first email\x27 or \x27email from [name]\x27.",
      state := st, sends := [] }

/-- `_handle_reply_content` (free text while in `email_reply` mode). -/
def handle_reply_content (env : Env) (st : EmailState) (q : String) : VoiceResult :=
  match st.activeEmail with
  | none =>
    { resp := .ok "I don\x27t have an email selected. Say \x27check emails\x27 first.",
      state := st, sends := [] }
  | some emailData => generate_reply env st q emailData

/-- `process_voice_command`: the main entry point of the email assistant.  A
pending confirmation claims the turn before any keyword matching. -/
def process_voice_command (env : Env) (st : EmailState) (query : String) : VoiceResult :=
  let ql := pyStrip (pyLower query)
  if st.pendingSend then handle_confirmation env st ql
  else if anyKeyword ql check_keywords then check_emails env st ql
  else if anyKeyword ql reply_keywords then reply_to_email env st ql
  else if anyKeyword ql compose_keywords then compose_email env st ql
  else if st.mode = "email_check" then handle_email_selection st ql
  else if st.mode = "email_reply" then handle_reply_content env st ql
  else
    { resp := .ok "I\x27m not sure what you want me to do. Try saying \x27check emails\x27 or \x27reply to that email\x27.",
      state := st, sends := [] }

/-! ## The scheduler (`schedule_action.py`)

`ScheduleAction` keeps `pending_task : Option String` and parses time
expressions against the current wall clock, which is passed in explicitly. -/

/-- A Python `datetime`: absolute day plus time-of-day fields (Python keeps
each field within calendar range). -/
structure DateTimeM where
  day : Nat
  hour : Nat
  minute : Nat
  second : Nat
  micro : Nat
  deriving Repr, DecidableEq

/-- Whole seconds represented by the datetime (microseconds aside). -/
def DateTimeM.secs (d : DateTimeM) : Nat :=
  ((d.day * 24 + d.hour) * 60 + d.minute) * 60 + d.second

/-- Rebuild a normalized datetime from whole seconds plus a microsecond part. -/
def DateTimeM.ofSecs (n micro : Nat) : DateTimeM :=
  { day := n / 86400, hour := n % 86400 / 3600, minute := n % 3600 / 60,
    second := n % 60, micro := micro }

/-- `d + timedelta(seconds=k)`. -/
def DateTimeM.addSecs (d : DateTimeM) (k : Nat) : DateTimeM :=
  DateTimeM.ofSecs (d.secs + k) d.micro

/-- Python `<` on datetimes (field-lexicographic, equivalently by seconds and
microseconds for in-range fields). -/
def DateTimeM.lt (a b : DateTimeM) : Bool :=
  a.secs < b.secs || (a.secs = b.secs && a.micro < b.micro)

def digitsToNat (ds : List Char) : Nat :=
  ds.foldl (fun acc c => acc * 10 + (c.toNat - '0'.toNat)) 0

/-- Try `(am|pm)` at the given position. -/
def tryMeridiem (s : List Char) : Option String :=
  match dropPfx ['a', 'm'] s with
  | some _ => some "am"
  | none =>
    match dropPfx ['p', 'm'] s with
    | some _ => some "pm"
    | none => none

/-- After `at\s+`, try `(\d{1,2})\s*(?::(\d{2}))?\s*(am|pm)` taking `k` hour
digits (regex greediness tries two first, then one). -/
def tryClock12 (r : List Char) (k : Nat) : Option (Nat × Option Nat × String) :=
  let ds := (r.takeWhile Char.isDigit).take k
  if ds.length = k then
    let r1 := r.drop k
    let r2 := r1.drop (r1.takeWhile Char.isWhitespace).length
    let withColon : Option (Nat × Option Nat × String) :=
      match r2 with
      | ':' :: r3 =>
        let ms := (r3.takeWhile Char.isDigit).take 2
        if ms.length = 2 then
          let r4 := r3.drop 2
          let r5 := r4.drop (r4.takeWhile Char.isWhitespace).length
          match tryMeridiem r5 with
          | some mer => some (digitsToNat ds, some (digitsToNat ms), mer)
          | none => none
        else none
      | _ => none
    match withColon with
    | some res => some res
    | none =>
      match tryMeridiem r2 with
      | some mer => some (digitsToNat ds, none, mer)
      | none => none
  else none

/-- One attempted match of `at\s+(\d{1,2})\s*(?::(\d{2}))?\s*(am|pm)`. -/
def tryAtPos1 (s : List Char) : Option (Nat × Option Nat × String) :=
  match dropPfx ['a', 't'] s with
  | none => none
  | some r0 =>
    let ws := r0.takeWhile Char.isWhitespace
    if ws.isEmpty then none
    else
      let r := r0.drop ws.length
      match tryClock12 r 2 with
      | some res => some res
      | none => tryClock12 r 1

def scanPat1 : List Char → Option (Nat × Option Nat × String)
  | [] => none
  | c :: rest =>
    match tryAtPos1 (c :: rest) with
    | some res => some res
    | none => scanPat1 rest

/-- After `at\s+`, try `(\d{1,2}):(\d{2})` taking `k` hour digits. -/
def tryClock24 (r : List Char) (k : Nat) : Option (Nat × Nat) :=
  let ds := (r.takeWhile Char.isDigit).take k
  if ds.length = k then
    match r.drop k with
    | ':' :: r3 =>
      let ms := (r3.takeWhile Char.isDigit).take 2
      if ms.length = 2 then some (digitsToNat ds, digitsToNat ms) else none
    | _ => none
  else none

/-- One attempted match of `at\s+(\d{1,2}):(\d{2})`. -/
def tryAtPos2 (s : List Char) : Option (Nat × Nat) :=
  match dropPfx ['a', 't'] s with
  | none => none
  | some r0 =>
    let ws := r0.takeWhile Char.isWhitespace
    if ws.isEmpty then none
    else
      let r := r0.drop ws.length
      match tryClock24 r 2 with
      | some res => some res
      | none => tryClock24 r 1

def scanPat2 : List Char → Option (Nat × Nat)
  | [] => none
  | c :: rest =>
    match tryAtPos2 (c :: rest) with
    | some res => some res
    | none => scanPat2 rest

/-- One attempted match of `in\s+(\d+)\s+(minute|hour|second)s?`. -/
def tryRelative (s : List Char) : Option (Nat × String) :=
  match dropPfx ['i', 'n'] s with
  | none => none
  | some r0 =>
    let ws := r0.takeWhile Char.isWhitespace
    if ws.isEmpty then none
    else
      let r1 := r0.drop ws.length
      let ds := r1.takeWhile Char.isDigit
      if ds.isEmpty then none
      else
        let r2 := r1.drop ds.length
        let ws2 := r2.takeWhile Char.isWhitespace
        if ws2.isEmpty then none
        else
          let r3 := r2.drop ws2.length
          if (dropPfx "minute".data r3).isSome then some (digitsToNat ds, "minute")
          else if (dropPfx "hour".data r3).isSome then some (digitsToNat ds, "hour")
          else if (dropPfx "second".data r3).isSome then some (digitsToNat ds, "second")
          else none

def scanRelative : List Char → Option (Nat × String)
  | [] => none
  | c :: rest =>
    match tryRelative (c :: rest) with
    | some res => some res
    | none => scanRelative rest

/-- `now.replace(hour=h, minute=m, second=0, microsecond=0)` after the AM/PM
adjustment, raising ValueError exactly as Python does, then the shift to
tomorrow when the time has already passed. -/
def clockToTime (now : DateTimeM) (h0 m : Nat) (mer : Option String) :
    Except String DateTimeM :=
  let h := if mer = some "pm" && h0 ≠ 12 then h0 + 12
    else if mer = some "am" && h0 = 12 then 0
    else h0
  if h ≥ 24 then .error "hour must be in 0..23"
  else if m ≥ 60 then .error "minute must be in 0..59"
  else
    let scheduled : DateTimeM := { now with hour := h, minute := m, second := 0, micro := 0 }
    .ok (if scheduled.lt now then scheduled.addSecs 86400 else scheduled)

/-- `_extract_time`: `.error` is a ValueError escaping `datetime.replace`;
`.ok none` means no time expression matched. -/
def extract_time (command : String) (now : DateTimeM) : Except String (Option DateTimeM) :=
  match scanPat1 command.data with
  | some (h, mm, mer) =>
    match clockToTime now h (mm.getD 0) (some mer) with
    | .error e => .error e
    | .ok t => .ok (some t)
  | none =>
    match scanPat2 command.data with
    | some (h, m) =>
      match clockToTime now h m none with
      | .error e => .error e
      | .ok t => .ok (some t)
    | none =>
      match scanRelative command.data with
      | some (n, u) =>
        .ok (some (if u = "minute" then now.addSecs (n * 60)
          else if u = "hour" then now.addSecs (n * 3600)
          else now.addSecs n))
      | none =>
        if containsSub command "tomorrow" then
          .ok (some { (now.addSecs 86400) with hour := 9, minute := 0, second := 0, micro := 0 })
        else .ok none

/-! ### Task extraction (`_extract_task`) -/

/-- `\s+` then the literal word, for the terminator alternation. -/
def wsThenWord (w : List Char) (rest : List Char) : Bool :=
  let ws := rest.takeWhile Char.isWhitespace
  !ws.isEmpty && (dropPfx w (rest.drop ws.length)).isSome

/-- The terminator `(?:\s+at|\s+in|\s+tomorrow|$)` of the task patterns. -/
def taskTailOk (rest : List Char) : Bool :=
  rest.isEmpty || wsThenWord "at".data rest || wsThenWord "in".data rest
    || wsThenWord "tomorrow".data rest

/-- Lazy `(.+?)` before the task terminator: shortest non-empty prefix whose
remainder starts with the terminator. -/
def lazyTask (acc : List Char) : List Char → Option (List Char)
  | [] => none
  | c :: rs => if taskTailOk rs then some (acc ++ [c]) else lazyTask (acc ++ [c]) rs

/-- Greedy `\s+` (trying `k` whitespace characters, longest first) followed by
the lazy task capture; returns the whitespace actually consumed and the
capture. -/
def wsLazyDown (r0 : List Char) : Nat → Option (List Char × List Char)
  | 0 => none
  | k + 1 =>
    match lazyTask [] (r0.drop (k + 1)) with
    | some cap => some (r0.take (k + 1), cap)
    | none => wsLazyDown r0 k

/-- Greedy `\s*` (zero allowed) followed by the lazy task capture. -/
def wsLazyDown0 (r0 : List Char) : Nat → Option (List Char)
  | 0 => lazyTask [] r0
  | k + 1 =>
    match lazyTask [] (r0.drop (k + 1)) with
    | some cap => some cap
    | none => wsLazyDown0 r0 k

/-- One attempted match of
`((?:open|launch|start)\s+.+?)(?:\s+at|\s+in|\s+tomorrow|$)`; the capture
includes the verb and the consumed whitespace. -/
def tryAppTask (s : List Char) : Option (List Char) :=
  let verb := if (dropPfx "open".data s).isSome then some "open".data
    else if (dropPfx "launch".data s).isSome then some "launch".data
    else if (dropPfx "start".data s).isSome then some "start".data
    else none
  match verb with
  | none => none
  | some v =>
    let r0 := s.drop v.length
    let len := (r0.takeWhile Char.isWhitespace).length
    if len = 0 then none
    else
      match wsLazyDown r0 len with
      | some (ws, cap) => some (v ++ ws ++ cap)
      | none => none

def scanAppTask : List Char → Option (List Char)
  | [] => none
  | c :: rest =>
    match tryAppTask (c :: rest) with
    | some g => some g
    | none => scanAppTask rest

/-- One attempted match of `LIT\s+(.+?)(?:\s+at|\s+in|\s+tomorrow|$)` for a
literal prefix (`remind me to`, `schedule`); the capture is the group only. -/
def tryLitTask (lit : List Char) (s : List Char) : Option (List Char) :=
  match dropPfx lit s with
  | none => none
  | some r0 =>
    let len := (r0.takeWhile Char.isWhitespace).length
    if len = 0 then none
    else
      match wsLazyDown r0 len with
      | some (_, cap) => some cap
      | none => none

def scanLitTask (lit : List Char) : List Char → Option (List Char)
  | [] => none
  | c :: rest =>
    match tryLitTask lit (c :: rest) with
    | some g => some g
    | none => scanLitTask lit rest

/-- One attempted match of
`set (?:a )?reminder (?:to )?\s*(.+?)(?:\s+at|\s+in|\s+tomorrow|$)`. -/
def trySetReminderTask (s : List Char) : Option (List Char) :=
  match dropPfx "set ".data s with
  | none => none
  | some r0 =>
    let r1 := match dropPfx "a ".data r0 with
      | some r => r
      | none => r0
    match dropPfx "reminder ".data r1 with
    | none => none
    | some r2 =>
      let attempt (r : List Char) : Option (List Char) :=
        wsLazyDown0 r (r.takeWhile Char.isWhitespace).length
      match dropPfx "to ".data r2 with
      | some r3 =>
        match attempt r3 with
        | some cap => some cap
        | none => attempt r2
      | none => attempt r2

def scanSetReminderTask : List Char → Option (List Char)
  | [] => none
  | c :: rest =>
    match trySetReminderTask (c :: rest) with
    | some g => some g
    | none => scanSetReminderTask rest

/-- `_extract_task`: the app-command pattern first, then the formal
scheduling phrases, each `re.search`-ed over the whole command. -/
def extract_task (command : String) : String :=
  match scanAppTask command.data with
  | some g => pyStrip (String.mk g)
  | none =>
    match scanLitTask "remind me to".data command.data with
    | some g => pyStrip (String.mk g)
    | none =>
      match scanLitTask "schedule".data command.data with
      | some g => pyStrip (String.mk g)
      | none =>
        match scanSetReminderTask command.data with
        | some g => pyStrip (String.mk g)
        | none => ""

/-! ### `ScheduleAction.schedule` -/

/-- Outcome of one `schedule` call: structured task data (scheduling
succeeds), a reply string, or a propagated exception. -/
inductive ScheduleOutcome where
  | scheduled (task : String) (time : DateTimeM)
  | reply (msg : String)
  | raised (msg : String)
  deriving Repr, DecidableEq

/-- The no-pending-task tail of `schedule` (regular complete command). -/
def schedule_regular (commandLower : String) (now : DateTimeM) :
    ScheduleOutcome × Option String :=
  let task := extract_task commandLower
  match extract_time commandLower now with
  | .error e => (.raised e, none)
  | .ok timeOpt =>
    if task = "" then
      (.reply "I couldn\x27t understand what you want me to remind you about.", none)
    else
      match timeOpt with
      | none =>
        (.reply ("I understood you want to: \x27" ++ task
          ++ "\x27, but I couldn\x27t determine when. Please specify a time."), none)
      | some t => (.scheduled task t, none)

/-- `ScheduleAction.schedule`, returning the outcome and the successor
`pending_task`.  A pending task makes the turn a pure time-parsing attempt:
success clears it, failure re-prompts and keeps it. -/
def schedule (pendingTask : Option String) (command : String) (now : DateTimeM) :
    ScheduleOutcome × Option String :=
  let commandLower := pyLower command
  match pendingTask with
  | some task =>
    match extract_time commandLower now with
    | .error e => (.raised e, pendingTask)
    | .ok (some t) => (.scheduled task t, none)
    | .ok none =>
      (.reply "I didn\x27t understand that time. Please say something like \x275 PM\x27 or \x27in 30 minutes\x27.",
        pendingTask)
  | none =>
    if pyStartsWith commandLower "remind me to" then
      let task := pyStrip (pyRemove commandLower "remind me to")
      if task ≠ "" then
        match extract_time commandLower now with
        | .error e => (.raised e, none)
        | .ok none =>
          (.reply ("Sure! I\x27ll remind you to " ++ task
            ++ ". When would you like me to remind you?"), some task)
        | .ok (some _) => schedule_regular commandLower now
      else schedule_regular commandLower now
    else schedule_regular commandLower now

/-! ## The intent classifier and router (`source_selector.py`)

`classify_intent` reads, besides the query, only the email assistant's
`state['mode']` and `state['pending_send']`; those are passed explicitly. -/

def youtube_music_keywords : List String :=
  ["play music", "play song", "play track", "play artist",
   "search music", "search song", "find song", "find music",
   "pause music", "pause song", "resume music", "continue music",
   "next song", "previous song", "skip song", "skip track",
   "volume up", "volume down", "set volume", "increase volume", "decrease volume",
   "add to queue", "clear queue", "shuffle queue", "show queue", "view queue",
   "create playlist", "show playlists", "my playlists", "list playlists",
   "recommend music", "music suggestions", "suggest songs",
   "happy music", "sad music", "workout music", "chill music", "focus music",
   "energetic music", "relaxed music", "party music",
   "what\x27s playing", "current song", "music status", "now playing"]

def email_voice_keywords : List String :=
  ["check email", "read email", "new email", "unread email", "any email",
   "reply", "reply to", "send reply", "answer email", "respond to",
   "compose email", "send email to", "write email", "how many email"]

def communication_keywords : List String :=
  ["priority email", "urgent email", "important email",
   "summarize email", "email summary",
   "action item", "extract action",
   "send telegram", "telegram message",
   "send sms", "text message",
   "notification", "notify me", "send notification",
   "mark as read", "mark email",
   "auto reply", "automatic reply"]

def translation_keywords : List String :=
  ["translate", "translation", "what language is", "detect language",
   "say in", "how do you say", "spanish for", "french for", "german for"]

def task_prediction_keywords : List String :=
  ["predict next task", "what should i do next", "suggest task",
   "optimize schedule", "optimize my schedule", "improve schedule"]

def doc_organization_keywords : List String :=
  ["organize documents", "organize files by date", "organize files by type",
   "process csv", "analyze csv", "analyse csv",
   "generate report", "create report"]

def screen_time_keywords : List String :=
  ["screen time", "track screen time", "how long have i worked",
   "daily report", "weekly report", "take a break", "break suggestion"]

def advanced_desktop_keywords : List String :=
  ["screenshot", "capture screen", "record screen", "start recording",
   "organize downloads", "clean downloads", "list windows", "show windows",
   "focus window", "switch to window", "run macro", "execute macro",
   "create folder", "make directory", "delete file", "move file"]

/-- The source file stores the multiplication and division signs
double-encoded; these are the two-character strings it actually contains
(U+00C3 U+2014 and U+00C3 U+00B7). -/
def math_indicators : List String :=
  ["+", "-", "*", "/", "x",
   String.mk [Char.ofNat 0xC3, Char.ofNat 0x2014],
   String.mk [Char.ofNat 0xC3, Char.ofNat 0xB7],
   "calculate", "compute", "math"]

def number_words : List String :=
  ["plus", "minus", "times", "divided", "multiply", "add", "subtract"]

def weather_words : List String :=
  ["weather", "temperature", "forecast", "rain", "sunny", "climate", "hot", "cold"]

def wiki_patterns : List String :=
  ["who is ", "tell me about ", "information about "]

/-! ### The ordered rule predicates of `classify_intent` -/

/-- Timed desktop command with `in` (`open X in Y seconds/minutes/hours`). -/
def timed_in_check (ql : String) : Bool :=
  containsSub ql " in "
    && (containsSub ql "second" || containsSub ql "minute" || containsSub ql "hour")
    && anyKeyword ql ["open", "launch", "start"]

/-- Timed desktop command with `at` (`open X at Y PM/AM`). -/
def timed_at_check (ql : String) : Bool :=
  containsSub ql " at " && (containsSub ql " pm" || containsSub ql " am")
    && anyKeyword ql ["open", "launch", "start"]

/-- `play `-prefixed phrase that is not about video/movie/game. -/
def play_prefix_check (ql : String) : Bool :=
  pyStartsWith ql "play " && !(anyKeyword ql ["video", "movie", "game"])

def yt_kw_check (ql : String) : Bool := anyKeyword ql youtube_music_keywords

def email_voice_check (ql : String) : Bool := anyKeyword ql email_voice_keywords

def communication_check (ql : String) : Bool := anyKeyword ql communication_keywords

def translation_check (ql : String) : Bool := anyKeyword ql translation_keywords

def task_prediction_check (ql : String) : Bool := anyKeyword ql task_prediction_keywords

def summarize_check (ql : String) : Bool :=
  containsSub ql "summarize" || containsSub ql "summarise"

def doc_org_check (ql : String) : Bool := anyKeyword ql doc_organization_keywords

def screen_time_check (ql : String) : Bool := anyKeyword ql screen_time_keywords

def adv_desktop_check (ql : String) : Bool := anyKeyword ql advanced_desktop_keywords

def desktop_pattern_check (ql : String) : Bool :=
  ["open ", "launch ", "start ", "close ", "run "].any (fun p => pyStartsWith ql p)

def weather_check (ql : String) : Bool := anyKeyword ql weather_words

def math_check (ql : String) : Bool := anyKeyword ql math_indicators

def number_words_check (ql : String) : Bool := anyKeyword ql number_words

def wiki_pattern_check (ql : String) : Bool :=
  wiki_patterns.any (fun p => pyStartsWith ql p)

/-- The shared time-qualifier disjunction of the reminder patterns. -/
def remind_time_qualifier (ql : String) : Bool :=
  containsSub ql " at " || containsSub ql " pm" || containsSub ql " am"
    || containsSub ql " tomorrow" || containsSub ql " in "

/-- `any(schedule_patterns)` (the list of five booleans). -/
def schedule_pattern_check (ql : String) : Bool :=
  (containsSub ql "remind me to" && remind_time_qualifier ql)
    || (pyStartsWith ql "remind me to" && !remind_time_qualifier ql)
    || (containsSub ql "schedule"
        && (containsSub ql " at " || containsSub ql " pm" || containsSub ql " am"))
    || containsSub ql "set alarm"
    || (containsSub ql "set reminder"
        && (containsSub ql " at " || containsSub ql " pm" || containsSub ql " am"))

def desktop_indicator_check (ql : String) : Bool :=
  anyKeyword ql ["open", "launch", "start", "close"]

def adv_indicator_check (ql : String) : Bool :=
  anyKeyword ql ["take screenshot", "organize downloads", "lock computer", "lock device"]

/-- `SourceSelector.classify_intent`: first matching rule wins.  The source's
check of the email conversation state sits inside the email-keyword branch and
returns `'email_voice'` on both of its arms; it is kept verbatim. -/
def classify_intent (emailMode : String) (emailPending : Bool) (query : String) : String :=
  let ql := pyStrip (pyLower query)
  if timed_in_check ql then "schedule"
  else if timed_at_check ql then "schedule"
  else if play_prefix_check ql then "youtube_music"
  else if yt_kw_check ql then "youtube_music"
  else if email_voice_check ql then
    (if emailMode ≠ "idle" || emailPending then "email_voice" else "email_voice")
  else if communication_check ql then "communication"
  else if translation_check ql then "translation"
  else if task_prediction_check ql then "productivity_ai"
  else if summarize_check ql then "document_processor"
  else if doc_org_check ql then "document_processor"
  else if screen_time_check ql then "screen_time_tracker"
  else if adv_desktop_check ql then "advanced_desktop"
  else if desktop_pattern_check ql then "desktop"
  else if weather_check ql then "weather"
  else if math_check ql || number_words_check ql then "llm"
  else if wiki_pattern_check ql && (pySplit ql).length ≥ 3 then "wikipedia"
  else if schedule_pattern_check ql then "schedule"
  else if desktop_indicator_check ql then "desktop"
  else if adv_indicator_check ql then "advanced_desktop"
  else "llm"

/-- The fast-response cache of `SourceSelector.__init__`. -/
def fast_responses : List (String × String) :=
  [("hi", "Hello! I\x27m Orbit."),
   ("hello", "Hi there!"),
   ("how are you", "I\x27m working perfectly!"),
   ("what can you do", "I can search Wikipedia, check weather, open apps, and more!"),
   ("thanks", "You\x27re welcome!"),
   ("thank you", "Happy to help!"),
   ("bye", "Goodbye!"),
   ("what is ai", "AI is artificial intelligence - computer systems that can learn."),
   ("what is artificial intelligence",
    "Computer systems that can perform tasks requiring human intelligence.")]

/-- The handler a turn is dispatched to by `SourceSelector.process`. -/
inductive Handler where
  | schedule
  | fastCache (reply : String)
  | weather
  | wikipedia
  | email_voice
  | communication
  | translation
  | productivity_ai
  | document_processor
  | screen_time_tracker
  | youtube_music
  | advanced_desktop
  | desktop
  | llm
  deriving Repr, DecidableEq

/-- The `elif` chain of `SourceSelector.process` mapping the intent tag to a
handler (anything unrecognized flows to the LLM). -/
def intent_handler (intent : String) : Handler :=
  if intent = "weather" then .weather
  else if intent = "wikipedia" then .wikipedia
  else if intent = "email_voice" then .email_voice
  else if intent = "communication" then .communication
  else if intent = "translation" then .translation
  else if intent = "productivity_ai" then .productivity_ai
  else if intent = "document_processor" then .document_processor
  else if intent = "screen_time_tracker" then .screen_time_tracker
  else if intent = "youtube_music" then .youtube_music
  else if intent = "advanced_desktop" then .advanced_desktop
  else if intent = "desktop" then .desktop
  else if intent = "schedule" then .schedule
  else .llm

/-- Per-turn routing of `SourceSelector.process`: a pending schedule consumes
the turn first, then the fast cache, then classification and dispatch. -/
def dispatch_target (schedPendingTask : Option String) (emailMode : String)
    (emailPending : Bool) (query : String) : Handler :=
  let ql := pyStrip (pyLower query)
  if schedPendingTask.isSome then .schedule
  else
    match lookupStr fast_responses ql with
    | some r => .fastCache r
    | none => intent_handler (classify_intent emailMode emailPending query)

/-! ## Concrete fixtures and turn sequences -/

/-- A concrete email used in the concrete turn evaluations. -/
def amyEmail : Email :=
  { fromAddr := some "amy@example.com", fromName := some "Amy",
    subject := some "Lunch", body := some "Lunch tomorrow?",
    priority := none, errMsg := none }

/-- A state awaiting send confirmation for a drafted reply to `amyEmail`. -/
def pendingReplyState : EmailState :=
  { mode := "email_reply", activeEmail := some amyEmail, recentEmails := [amyEmail],
    draftEmail := none, pendingSend := true,
    replyBody := some "Sounds good, see you then." }

/-- An environment whose send collaborator always reports success. -/
def sendOkEnv : Env :=
  { read_emails := fun _ => .ok [amyEmail],
    llm_generate := fun _ => .ok "Sounds good, see you then.",
    send_email := fun _ _ _ => .ok { status := some "sent", errMsg := none } }

/-- An environment whose send collaborator always reports failure. -/
def sendFailEnv : Env :=
  { read_emails := fun _ => .ok [amyEmail],
    llm_generate := fun _ => .ok "Sounds good, see you then.",
    send_email := fun _ _ _ =>
      .ok { status := some "error", errMsg := some "SMTP connection refused" } }

/-- Run a sequence of turns through `process_voice_command`, collecting every
`send_email` invocation. -/
def run_turns (env : Env) (st : EmailState) : List String → EmailState × List SendCall
  | [] => (st, [])
  | q :: qs =>
    let r := process_voice_command env st q
    let rest := run_turns env r.state qs
    (rest.1, r.sends ++ rest.2)

/-- The email assistant state after a sequence of turns (each with its own
collaborator environment), starting from the initial state. -/
def run_state (turns : List (Env × String)) : EmailState :=
  turns.foldl (fun st t => (process_voice_command t.1 st t.2).state) initialEmailState

/-! ## Claims -/

/-- C1: the claim says that while the email state machine is not idle or a
confirmation is pending, the router hands every utterance to
`process_voice_command`, bypassing intent classification.  The code violates
this: `classify_intent`'s state check is nested inside the email-keyword
branch, so a bare "yes" during pending confirmation matches no email keyword,
is classified `'llm'`, and the router streams it to the LLM handler instead of
the email state machine. -/
theorem C1_yes_during_confirmation_goes_to_llm :
    classify_intent "email_reply" true "yes" = "llm" ∧
    dispatch_target none "email_reply" true "yes" = Handler.llm ∧
    Handler.llm ≠ Handler.email_voice := by
  decide

/-- C2: the claim says every utterance containing a negative-confirmation word
(in particular "don't send") discards the draft and does not send.  The code
violates it: `_handle_confirmation` tests the affirmative set first and that
set contains the bare word "send", which is a substring of "don't send", so
the email is sent. -/
theorem C2_dont_send_sends_anyway :
    (process_voice_command sendOkEnv pendingReplyState "don\x27t send").sends.length = 1 ∧
    (process_voice_command sendOkEnv pendingReplyState "don\x27t send").resp =
      .ok "Email sent to Amy!" := by
  decide

/-- C3 counterexample: the claim says that on a failed send the state still
resets to idle.  It does not: with the send collaborator reporting failure,
after the affirmative "yes" the state keeps `pending_send = true` (and the
draft), so it is not reset, while the failure reason is surfaced. -/
theorem C3_counterexample :
    (process_voice_command sendFailEnv pendingReplyState "yes").state.pendingSend = true ∧
    (process_voice_command sendFailEnv pendingReplyState "yes").state ≠ initialEmailState ∧
    (process_voice_command sendFailEnv pendingReplyState "yes").resp =
      .ok "Sorry, the email failed to send: SMTP connection refused" := by
  decide

/-- C3 (amended): when the affirmative transition sends and the send reports a
status other than `'sent'`, the state machine does NOT reset — mode,
pending_send, draft and referent are all left unchanged — no automatic retry
happens within the turn (exactly one send attempt), and the returned response
surfaces the failure reason. -/
theorem C3_send_failure_keeps_state (env : Env) (st : EmailState) (q : String)
    (emailData : Email) (replyBody : String) (res : SendResult)
    (hp : st.pendingSend = true)
    (ha : st.activeEmail = some emailData)
    (hb : st.replyBody = some replyBody)
    (hb' : replyBody ≠ "")
    (hyes : anyKeyword (pyStrip (pyLower q)) confirmation_yes = true)
    (hsend : env.send_email emailData.fromAddr (reply_subject emailData) replyBody = .ok res)
    (hres : res.status ≠ some "sent") :
    (process_voice_command env st q).state = st ∧
    (process_voice_command env st q).sends.length = 1 ∧
    (process_voice_command env st q).resp =
      .ok ("Sorry, the email failed to send: " ++ res.errMsg.getD "Unknown error") := by
  unfold process_voice_command handle_confirmation send_reply
  simp only [hp, hyes, ha, hb, hb', hsend, hres, if_true, if_false, ite_false, ite_true]
  simp [hb', hres]

/-- Witness for C3 at a concrete failing send. -/
theorem C3_send_failure_keeps_state_witness :
    (process_voice_command sendFailEnv pendingReplyState "yes").state = pendingReplyState ∧
    (process_voice_command sendFailEnv pendingReplyState "yes").sends.length = 1 ∧
    (process_voice_command sendFailEnv pendingReplyState "yes").resp =
      .ok ("Sorry, the email failed to send: "
        ++ (some "SMTP connection refused").getD "Unknown error") :=
  C3_send_failure_keeps_state sendFailEnv pendingReplyState "yes" amyEmail
    "Sounds good, see you then." { status := some "error", errMsg := some "SMTP connection refused" }
    (by decide) (by decide) (by decide) (by decide) (by decide) (by decide) (by decide)

/-- C4 counterexample: the claim says a draft that reached pending
confirmation followed by two "yes" utterances invokes the send operation
exactly once.  When the send collaborator reports failure the state is not
reset, so the second "yes" is treated as another confirmation and
`send_email` is invoked twice. -/
theorem C4_counterexample :
    (run_turns sendFailEnv initialEmailState
      ["check emails", "reply to amy tell her i will be late", "yes", "yes"]).2.length = 2 := by
  decide

/-- C4 (amended): provided the send collaborator reports `'sent'` (and the
active email carries a sender address), the send is invoked exactly once: the
first "yes" sends and resets the state to idle, and the second "yes" is
processed as a fresh idle-mode turn that invokes no send. -/
theorem C4_single_send_on_success (env1 env2 : Env) (st : EmailState)
    (emailData : Email) (addr replyBody : String) (res : SendResult)
    (hp : st.pendingSend = true)
    (ha : st.activeEmail = some emailData)
    (haddr : emailData.fromAddr = some addr)
    (hb : st.replyBody = some replyBody)
    (hb' : replyBody ≠ "")
    (hsend : env1.send_email (some addr) (reply_subject emailData) replyBody = .ok res)
    (hres : res.status = some "sent") :
    (process_voice_command env1 st "yes").sends.length = 1 ∧
    (process_voice_command env1 st "yes").state = initialEmailState ∧
    (process_voice_command env2 (process_voice_command env1 st "yes").state "yes").sends = [] ∧
    (process_voice_command env2 (process_voice_command env1 st "yes").state "yes").resp =
      .ok "I\x27m not sure what you want me to do. Try saying \x27check emails\x27 or \x27reply to that email\x27." := by
  have hyes : anyKeyword (pyStrip (pyLower "yes")) confirmation_yes = true := by decide
  have key : process_voice_command env1 st "yes" =
      { resp := .ok ("Email sent to " ++ emailData.fromName.getD (localPart addr) ++ "!"),
        state := initialEmailState,
        sends := [{ toAddr := some addr, subject := reply_subject emailData, body := replyBody }] } := by
    unfold process_voice_command handle_confirmation send_reply
    simp only [hp, hyes, ha, hb, haddr, hsend, hres, if_true]
    simp [hb']
  rw [key]
  exact ⟨rfl, rfl, rfl, rfl⟩

/-- Witness for C4 at a concrete succeeding send. -/
theorem C4_single_send_on_success_witness :
    (process_voice_command sendOkEnv pendingReplyState "yes").sends.length = 1 ∧
    (process_voice_command sendOkEnv pendingReplyState "yes").state = initialEmailState ∧
    (process_voice_command sendOkEnv (process_voice_command sendOkEnv pendingReplyState "yes").state
      "yes").sends = [] ∧
    (process_voice_command sendOkEnv (process_voice_command sendOkEnv pendingReplyState "yes").state
      "yes").resp =
      .ok "I\x27m not sure what you want me to do. Try saying \x27check emails\x27 or \x27reply to that email\x27." :=
  C4_single_send_on_success sendOkEnv sendOkEnv pendingReplyState amyEmail
    "amy@example.com" "Sounds good, see you then." { status := some "sent", errMsg := none }
    (by decide) (by decide) (by decide) (by decide) (by decide) (by decide) (by decide)

/-! ### The pending-send invariant (C5) -/

/-- The invariant: whenever confirmation is pending there is something
concrete to send — a draft, or an active referent email plus a generated
reply body. -/
def PendingInv (st : EmailState) : Prop :=
  st.pendingSend = true →
    st.draftEmail.isSome = true ∨
      (st.activeEmail.isSome = true ∧ st.replyBody.isSome = true)

theorem pendingInv_initial : PendingInv initialEmailState := by
  intro h
  simp [initialEmailState] at h

theorem pendingInv_of_pendingSend_false {st : EmailState}
    (h : st.pendingSend = false) : PendingInv st := by
  intro hp
  rw [h] at hp
  simp at hp

theorem generate_reply_inv (env : Env) (st : EmailState) (c : String) (e : Email)
    (hp : st.pendingSend = false) (ha : st.activeEmail.isSome = true) :
    PendingInv (generate_reply env st c e).state := by
  unfold generate_reply
  dsimp only
  cases henv : env.llm_generate (reply_prompt c e) with
  | error m => exact pendingInv_of_pendingSend_false hp
  | ok g =>
    intro _
    exact Or.inr ⟨ha, rfl⟩

theorem send_reply_inv (env : Env) (st : EmailState) (h : PendingInv st) :
    PendingInv (send_reply env st).state := by
  unfold send_reply
  dsimp only
  split
  · split
    · exact h
    · split
      · exact h
      · split
        · split
          · exact h
          · exact pendingInv_initial
        · exact h
  · exact h

theorem handle_confirmation_inv (env : Env) (st : EmailState) (q : String)
    (h : PendingInv st) : PendingInv (handle_confirmation env st q).state := by
  unfold handle_confirmation
  dsimp only
  split
  · exact send_reply_inv env st h
  · split
    · exact pendingInv_initial
    · exact h

theorem check_emails_inv (env : Env) (st : EmailState) (q : String)
    (hp : st.pendingSend = false) : PendingInv (check_emails env st q).state := by
  unfold check_emails
  dsimp only
  split
  · exact pendingInv_of_pendingSend_false hp
  · split
    · exact pendingInv_of_pendingSend_false hp
    · split
      · exact pendingInv_of_pendingSend_false hp
      · exact pendingInv_of_pendingSend_false hp

theorem reply_with_selected_inv (env : Env) (st : EmailState) (q : String) (e : Email)
    (hp : st.pendingSend = false) : PendingInv (reply_with_selected env st q e).state := by
  unfold reply_with_selected
  dsimp only
  split
  · exact generate_reply_inv env _ _ e hp rfl
  · exact pendingInv_of_pendingSend_false hp

theorem reply_to_email_inv (env : Env) (st : EmailState) (q : String)
    (hp : st.pendingSend = false) : PendingInv (reply_to_email env st q).state := by
  unfold reply_to_email
  dsimp only
  split
  · exact pendingInv_of_pendingSend_false hp
  · split
    · exact reply_with_selected_inv env st q _ hp
    · split
      · exact reply_with_selected_inv env st q _ hp
      · exact pendingInv_of_pendingSend_false hp

theorem compose_email_inv (env : Env) (st : EmailState) (q : String)
    (hp : st.pendingSend = false) : PendingInv (compose_email env st q).state := by
  unfold compose_email
  dsimp only
  split
  · exact pendingInv_of_pendingSend_false hp
  · split
    · exact pendingInv_of_pendingSend_false hp
    · split
      · exact pendingInv_of_pendingSend_false hp
      · intro _
        exact Or.inl rfl

theorem handle_email_selection_inv (st : EmailState) (q : String)
    (hp : st.pendingSend = false) : PendingInv (handle_email_selection st q).state := by
  unfold handle_email_selection
  dsimp only
  split
  · exact pendingInv_of_pendingSend_false hp
  · exact pendingInv_of_pendingSend_false hp

theorem handle_reply_content_inv (env : Env) (st : EmailState) (q : String)
    (hp : st.pendingSend = false) : PendingInv (handle_reply_content env st q).state := by
  unfold handle_reply_content
  cases hae : st.activeEmail with
  | none => exact pendingInv_of_pendingSend_false hp
  | some e => exact generate_reply_inv env st q e hp (by rw [hae]; rfl)

theorem process_voice_command_inv (env : Env) (st : EmailState) (q : String)
    (h : PendingInv st) : PendingInv (process_voice_command env st q).state := by
  unfold process_voice_command
  dsimp only
  cases hb : st.pendingSend with
  | true =>
    rw [if_pos rfl]
    exact handle_confirmation_inv env st _ h
  | false =>
    rw [if_neg (by simp)]
    split
    · exact check_emails_inv env st _ hb
    · split
      · exact reply_to_email_inv env st _ hb
      · split
        · exact compose_email_inv env st _ hb
        · split
          · exact handle_email_selection_inv st _ hb
          · split
            · exact handle_reply_content_inv env st _ hb
            · exact pendingInv_of_pendingSend_false hb

theorem run_state_inv (turns : List (Env × String)) : PendingInv (run_state turns) := by
  suffices h : ∀ (l : List (Env × String)) (st : EmailState), PendingInv st →
      PendingInv (l.foldl (fun s t => (process_voice_command t.1 s t.2).state) st) by
    exact h turns initialEmailState pendingInv_initial
  intro l
  induction l with
  | nil => exact fun st h => h
  | cons t ts ih => exact fun st h => ih _ (process_voice_command_inv t.1 st t.2 h)

/-- C5: in every state of the email assistant reachable from the initial
state by any sequence of `process_voice_command` calls (with arbitrary
collaborator behavior each turn), `pending_send = true` implies the draft is
non-null or both the active email and the reply body are non-null. -/
theorem C5_pending_send_invariant (turns : List (Env × String))
    (h : (run_state turns).pendingSend = true) :
    (run_state turns).draftEmail.isSome = true ∨
      ((run_state turns).activeEmail.isSome = true ∧
        (run_state turns).replyBody.isSome = true) :=
  run_state_inv turns h

/-- A concrete two-turn run that reaches a pending confirmation. -/
def pendingRunTurns : List (Env × String) :=
  [(sendFailEnv, "check emails"), (sendFailEnv, "reply to amy tell her i will be late")]

/-- Witness for C5 at a concrete reachable pending-confirmation state. -/
theorem C5_pending_send_invariant_witness :
    (run_state pendingRunTurns).draftEmail.isSome = true ∨
      ((run_state pendingRunTurns).activeEmail.isSome = true ∧
        (run_state pendingRunTurns).replyBody.isSome = true) :=
  C5_pending_send_invariant pendingRunTurns (by decide)

/-- C6: while a `PendingSchedule` exists the router consumes the turn with the
schedule handler before cache lookup and classification, and `schedule` either
completes the pending task with the parsed time (clearing it) or re-prompts
and leaves it unchanged. -/
theorem C6_pending_schedule_turn (task cmd : String) (now : DateTimeM)
    (emailMode : String) (emailPending : Bool) :
    dispatch_target (some task) emailMode emailPending cmd = Handler.schedule ∧
    (∀ t, extract_time (pyLower cmd) now = .ok (some t) →
      schedule (some task) cmd now = (.scheduled task t, none)) ∧
    (extract_time (pyLower cmd) now = .ok none →
      schedule (some task) cmd now =
        (.reply "I didn\x27t understand that time. Please say something like \x275 PM\x27 or \x27in 30 minutes\x27.",
         some task)) := by
  refine ⟨rfl, ?_, ?_⟩
  · intro t ht
    unfold schedule
    simp only [ht]
  · intro ht
    unfold schedule
    simp only [ht]

/-- Witness for C6 at a concrete pending task, a parsing utterance and a
non-parsing one. -/
theorem C6_pending_schedule_turn_witness :
    dispatch_target (some "call mom") "idle" false "at 5 pm" = Handler.schedule ∧
    schedule (some "call mom") "at 5 pm" ⟨0, 10, 0, 0, 0⟩ =
      (.scheduled "call mom" ⟨0, 17, 0, 0, 0⟩, none) ∧
    schedule (some "call mom") "whenever" ⟨0, 10, 0, 0, 0⟩ =
      (.reply "I didn\x27t understand that time. Please say something like \x275 PM\x27 or \x27in 30 minutes\x27.",
       some "call mom") :=
  ⟨(C6_pending_schedule_turn "call mom" "at 5 pm" ⟨0, 10, 0, 0, 0⟩ "idle" false).1,
   (C6_pending_schedule_turn "call mom" "at 5 pm" ⟨0, 10, 0, 0, 0⟩ "idle" false).2.1 _ (by decide),
   (C6_pending_schedule_turn "call mom" "whenever" ⟨0, 10, 0, 0, 0⟩ "idle" false).2.2 (by decide)⟩

/-- C7 counterexample: the claim asserts an explicit cancel word for the
multi-turn scheduling protocol.  No such word exists: for every utterance,
while a pending task exists, either a time parses (and the task is scheduled)
or the pending task survives the turn. -/
theorem C7_counterexample :
    ¬ ∃ w : String, ∀ (task : String) (now : DateTimeM),
        (schedule (some task) w now).2 = none ∧
        ∀ (tk : String) (t : DateTimeM),
          (schedule (some task) w now).1 ≠ ScheduleOutcome.scheduled tk t := by
  rintro ⟨w, hw⟩
  obtain ⟨h1, h2⟩ := hw "call mom" ⟨0, 10, 0, 0, 0⟩
  unfold schedule at h1 h2
  dsimp only at h1 h2
  cases hext : extract_time (pyLower w) ⟨0, 10, 0, 0, 0⟩ with
  | error e =>
    rw [hext] at h1
    simp at h1
  | ok o =>
    cases o with
    | some t =>
      rw [hext] at h2
      exact h2 "call mom" t rfl
    | none =>
      rw [hext] at h1
      simp at h1

/-- C7 (amended): the email confirmation protocol has an explicit cancel word
("cancel" resets the assistant to idle from any pending confirmation), but the
scheduling protocol has none: while a pending task exists, every utterance
either completes the schedule with a parsed time or leaves the pending task
intact — no utterance clears it without scheduling. -/
theorem C7_no_cancel_word_for_pending_schedule (w task : String) (now : DateTimeM)
    (env : Env) (st : EmailState) (hp : st.pendingSend = true) :
    ((∃ t, schedule (some task) w now = (.scheduled task t, none)) ∨
      (schedule (some task) w now).2 = some task) ∧
    (process_voice_command env st "cancel").state = initialEmailState := by
  constructor
  · unfold schedule
    dsimp only
    cases hext : extract_time (pyLower w) now with
    | error e => exact Or.inr rfl
    | ok o =>
      cases o with
      | some t => exact Or.inl ⟨t, rfl⟩
      | none => exact Or.inr rfl
  · have hyes : anyKeyword (pyStrip (pyLower "cancel")) confirmation_yes = false := by decide
    have hno : anyKeyword (pyStrip (pyLower "cancel")) confirmation_no = true := by decide
    unfold process_voice_command handle_confirmation
    dsimp only
    simp [hp, hyes, hno]

/-- Witness for C7 (amended) at a concrete pending task and pending
confirmation. -/
theorem C7_no_cancel_word_for_pending_schedule_witness :
    ((∃ t, schedule (some "do the laundry") "cancel" ⟨0, 10, 0, 0, 0⟩ =
        (.scheduled "do the laundry" t, none)) ∨
      (schedule (some "do the laundry") "cancel" ⟨0, 10, 0, 0, 0⟩).2 = some "do the laundry") ∧
    (process_voice_command sendOkEnv pendingReplyState "cancel").state = initialEmailState :=
  C7_no_cancel_word_for_pending_schedule "cancel" "do the laundry" ⟨0, 10, 0, 0, 0⟩
    sendOkEnv pendingReplyState (by decide)

/-- C8: an utterance that begins with an encyclopedic lookup pattern
("who is ", "tell me about ", "information about "), has at least three words,
and matches none of the higher-priority rules (timed desktop, media, email,
communication, translation, productivity, document, screen time, advanced
desktop, desktop prefix, weather, arithmetic indicators or number words) is
classified `'wikipedia'`. -/
theorem C8_wiki_fallthrough (emailMode : String) (emailPending : Bool) (q : String)
    (hwiki : wiki_pattern_check (pyStrip (pyLower q)) = true)
    (hlen : (pySplit (pyStrip (pyLower q))).length ≥ 3)
    (h1 : timed_in_check (pyStrip (pyLower q)) = false)
    (h2 : timed_at_check (pyStrip (pyLower q)) = false)
    (h3 : play_prefix_check (pyStrip (pyLower q)) = false)
    (h4 : yt_kw_check (pyStrip (pyLower q)) = false)
    (h5 : email_voice_check (pyStrip (pyLower q)) = false)
    (h6 : communication_check (pyStrip (pyLower q)) = false)
    (h7 : translation_check (pyStrip (pyLower q)) = false)
    (h8 : task_prediction_check (pyStrip (pyLower q)) = false)
    (h9 : summarize_check (pyStrip (pyLower q)) = false)
    (h10 : doc_org_check (pyStrip (pyLower q)) = false)
    (h11 : screen_time_check (pyStrip (pyLower q)) = false)
    (h12 : adv_desktop_check (pyStrip (pyLower q)) = false)
    (h13 : desktop_pattern_check (pyStrip (pyLower q)) = false)
    (h14 : weather_check (pyStrip (pyLower q)) = false)
    (h15 : math_check (pyStrip (pyLower q)) = false)
    (h16 : number_words_check (pyStrip (pyLower q)) = false) :
    classify_intent emailMode emailPending q = "wikipedia" := by
  unfold classify_intent
  dsimp only
  simp [h1, h2, h3, h4, h5, h6, h7, h8, h9, h10, h11, h12, h13, h14, h15, h16, hwiki, hlen]

/-- Witness for C8 at a concrete biographical query. -/
theorem C8_wiki_fallthrough_witness :
    classify_intent "idle" false "who is marie curie" = "wikipedia" :=
  C8_wiki_fallthrough "idle" false "who is marie curie" (by decide) (by decide)
    (by decide) (by decide) (by decide) (by decide) (by decide) (by decide) (by decide)
    (by decide) (by decide) (by decide) (by decide) (by decide) (by decide) (by decide)
    (by decide) (by decide)

/-- C9: with `recent_emails = [A, B, C]` most-recent-first, "reply to the
first one" and "reply to the latest one" resolve to `A`, and "reply to the
last one" resolves to `C`. -/
theorem C9_ordinal_reference_resolution (A B C : Email) :
    select_email_from_query [A, B, C] "reply to the first one" = some A ∧
    select_email_from_query [A, B, C] "reply to the latest one" = some A ∧
    select_email_from_query [A, B, C] "reply to the last one" = some C := by
  refine ⟨rfl, rfl, rfl⟩


/-! ### Ambiguity re-prompt (C10) -/

theorem selectByName_none (q : String) (l : List Email)
    (h : ∀ e ∈ l,
      (pyLower (e.fromName.getD "") = "" ∨
        containsSub q (pyLower (e.fromName.getD "")) = false) ∧
      (pyLower (e.fromAddr.getD "") = "" ∨
        containsSub q (pyLower (localPart (pyLower (e.fromAddr.getD "")))) = false)) :
    selectByName q l = none := by
  induction l with
  | nil => rfl
  | cons e rest ih =>
    obtain ⟨h1, h2⟩ := h e (List.mem_cons_self e rest)
    have hrest := ih (fun e' he' => h e' (List.mem_cons_of_mem _ he'))
    unfold selectByName
    dsimp only
    rcases h1 with h1 | h1 <;> rcases h2 with h2 | h2 <;>
      simp [h1, h2, hrest]

theorem select_none_of_no_selector (q : String) (l : List Email)
    (hOrd : ∀ w ∈ (["first", "latest", "newest", "most recent",
        "second", "third", "last"] : List String), containsSub q w = false)
    (hName : ∀ e ∈ l,
      (pyLower (e.fromName.getD "") = "" ∨
        containsSub q (pyLower (e.fromName.getD "")) = false) ∧
      (pyLower (e.fromAddr.getD "") = "" ∨
        containsSub q (pyLower (localPart (pyLower (e.fromAddr.getD "")))) = false)) :
    select_email_from_query l q = none := by
  have hf := hOrd "first" (by simp)
  have hl := hOrd "latest" (by simp)
  have hn := hOrd "newest" (by simp)
  have hm := hOrd "most recent" (by simp)
  have hs := hOrd "second" (by simp)
  have ht := hOrd "third" (by simp)
  have hla := hOrd "last" (by simp)
  unfold select_email_from_query
  simp [hf, hl, hn, hm, hs, ht, hla, selectByName_none q l hName]

/-- C10: with more than one recent email loaded and a reply command carrying
no ordinal selector and no sender name or address local-part, the turn
re-prompts by listing the available sender names and produces no draft: the
state is unchanged (pending_send stays false, no reply body is generated) and
no send occurs. -/
theorem C10_ambiguous_reply_lists_senders (env : Env) (st : EmailState) (q : String)
    (e0 e1 : Email) (rest : List Email)
    (hrec : st.recentEmails = e0 :: e1 :: rest)
    (hpend : st.pendingSend = false)
    (hreply : anyKeyword (pyStrip (pyLower q)) reply_keywords = true)
    (hcheck : anyKeyword (pyStrip (pyLower q)) check_keywords = false)
    (hOrd : ∀ w ∈ (["first", "latest", "newest", "most recent",
        "second", "third", "last"] : List String),
      containsSub (pyStrip (pyLower q)) w = false)
    (hName : ∀ e ∈ st.recentEmails,
      (pyLower (e.fromName.getD "") = "" ∨
        containsSub (pyStrip (pyLower q)) (pyLower (e.fromName.getD "")) = false) ∧
      (pyLower (e.fromAddr.getD "") = "" ∨
        containsSub (pyStrip (pyLower q))
          (pyLower (localPart (pyLower (e.fromAddr.getD "")))) = false)) :
    process_voice_command env st q =
      { resp := .ok ("Which email? I have emails from "
          ++ joinWith ", " (st.recentEmails.map sender_name)
          ++ ". Say \x27reply to\x27 followed by the name."),
        state := st, sends := [] } := by
  have hsel : select_email_from_query st.recentEmails (pyStrip (pyLower q)) = none :=
    select_none_of_no_selector _ _ hOrd hName
  rw [hrec] at hsel
  unfold process_voice_command reply_to_email
  dsimp only
  simp only [hpend, hcheck, hreply, hrec, hsel]
  simp

/-- A second concrete sender for the C10 witness. -/
def bobEmail : Email :=
  { fromAddr := some "bob@example.com", fromName := some "Bob",
    subject := some "Report", body := some "Draft attached",
    priority := none, errMsg := none }

/-- A state with two recent emails from distinct senders. -/
def twoSenderState : EmailState :=
  { mode := "email_check", activeEmail := none, recentEmails := [amyEmail, bobEmail],
    draftEmail := none, pendingSend := false, replyBody := none }

/-- Witness for C10 at a selector-free reply command with two candidates. -/
theorem C10_ambiguous_reply_lists_senders_witness :
    process_voice_command sendOkEnv twoSenderState "reply" =
      { resp := .ok ("Which email? I have emails from "
          ++ joinWith ", " (twoSenderState.recentEmails.map sender_name)
          ++ ". Say \x27reply to\x27 followed by the name."),
        state := twoSenderState, sends := [] } :=
  C10_ambiguous_reply_lists_senders sendOkEnv twoSenderState "reply" amyEmail bobEmail []
    rfl (by decide) (by decide) (by decide) (by decide) (by decide)

end Orbit
